import Mathlib

/-!
Shallow embedding of the sentiment-classification core of the repository
`ml-sentiment-ops` (files `src/api/main_simple.py` and
`src/monitoring/metrics_simple.py`), with theorems settling the spec claims.

Python `str` values are sequences of Unicode code points, modelled as
`List Char`; Python slicing `text[:100]` is `List.take 100`, `len` is
`List.length`, `str.lower()` is a character-wise lowercase map (the words
matched are ASCII, where the two agree).  Python floats are modelled as `ℚ`;
the draws of `random.uniform(a, b)` and `random.choice` are supplied by an
oracle (`Rand`), constrained to the half-open interval `[a, b)` that
`uniform` draws from.  `round(x, n)` is rounding to `n` decimal digits.
-/

namespace MLSentimentOps

/-- A text: Python `str` as a list of code points. -/
abbrev Text := List Char

/-- Python `text.lower()` (character-wise; coincides with Python on ASCII). -/
def pyLower (t : Text) : Text := t.map Char.toLower

/-- Python `pat in s` substring test: `pat` occurs contiguously inside `s`. -/
def containsSub (pat : Text) : Text → Bool
  | [] => List.isPrefixOf pat []
  | c :: rest => List.isPrefixOf pat (c :: rest) || containsSub pat rest

/-- The fixed positive-indicator terms of `main_simple.predict`. -/
def positiveWords : List Text :=
  (["love", "great", "awesome", "excellent", "amazing", "wonderful"]).map String.data

/-- The fixed negative-indicator terms of `main_simple.predict`. -/
def negativeWords : List Text :=
  (["hate", "terrible", "awful", "horrible", "worst", "bad"]).map String.data

/-- `any(word in text_lower for word in [positive words])`. -/
def hasPositive (t : Text) : Bool :=
  positiveWords.any (fun w => containsSub w (pyLower t))

/-- `any(word in text_lower for word in [negative words])`. -/
def hasNegative (t : Text) : Bool :=
  negativeWords.any (fun w => containsSub w (pyLower t))

/-- Python `round(q, 4)`: round to 4 decimal digits.  (Python uses
round-half-even; no statement below depends on the tie direction.) -/
def round4 (q : ℚ) : ℚ := (round (q * 10000) : ℤ) / 10000

/-- Python `round(q, 3)`: round to 3 decimal digits. -/
def round3 (q : ℚ) : ℚ := (round (q * 1000) : ℤ) / 1000

/-- Oracle for the random draws one text's scoring may consume:
`hi` models `random.uniform(0.85, 0.99)`, `lo` models
`random.uniform(0.50, 0.75)`, and `coin` models
`random.choice(["POSITIVE", "NEGATIVE"])` (`true` picks POSITIVE). -/
structure Rand where
  hi : ℚ
  lo : ℚ
  coin : Bool

def positiveLabel : String := "POSITIVE"

def negativeLabel : String := "NEGATIVE"

def mockModelVersion : String := "mock-model-v1"

/-- The three-character ellipsis marker appended on truncation. -/
def ellipsis : Text := (".").data ++ (".").data ++ (".").data

/-- One prediction entry of `main_simple.predict`'s response. -/
structure Verdict where
  text : Text
  sentiment : String
  confidence : ℚ
  model_version : String
deriving DecidableEq

/-- `text[:100] + "..." if len(text) > 100 else text`. -/
def truncateText (t : Text) : Text :=
  if t.length > 100 then t.take 100 ++ ellipsis else t

/-- The per-text body of the loop in `main_simple.predict`: rule-based
sentiment plus confidence draw, truncation, and 4-digit rounding. -/
def scoreText (t : Text) (r : Rand) : Verdict :=
  if hasPositive t then
    { text := truncateText t, sentiment := positiveLabel,
      confidence := round4 r.hi, model_version := mockModelVersion }
  else if hasNegative t then
    { text := truncateText t, sentiment := negativeLabel,
      confidence := round4 r.hi, model_version := mockModelVersion }
  else
    { text := truncateText t,
      sentiment := if r.coin then positiveLabel else negativeLabel,
      confidence := round4 r.lo, model_version := mockModelVersion }

/-- The loop of `main_simple.predict` over the request's texts, in order;
the i-th text consumes the i-th oracle entry. -/
def scoreTexts (rands : ℕ → Rand) : List Text → List Verdict
  | [] => []
  | t :: ts => scoreText t (rands 0) :: scoreTexts (fun i => rands (i + 1)) ts

/-- The response value of `main_simple.predict`. -/
structure BatchResult where
  predictions : List Verdict
  count : ℕ
  processing_time : ℚ
deriving DecidableEq

/-- `main_simple.predict`: scores every text, sets `count` to the number of
predictions, and attaches the elapsed wall-clock time rounded to 3 digits
(the elapsed duration is an oracle input here). -/
def predict (texts : List Text) (rands : ℕ → Rand) (elapsed : ℚ) : BatchResult :=
  let predictions := scoreTexts rands texts
  { predictions := predictions, count := predictions.length,
    processing_time := round3 elapsed }

/-- The module-level counters of `metrics_simple`: the two entries of the
dict `prediction_count`, plus `request_count` and `total_duration`. -/
structure MetricsState where
  success : ℕ
  error : ℕ
  request_count : ℕ
  total_duration : ℚ
deriving DecidableEq

/-- The state at process start: every counter zero. -/
def initialMetrics : MetricsState :=
  { success := 0, error := 0, request_count := 0, total_duration := 0 }

def successKey : String := "success"

def errorKey : String := "error"

def keyErrorMsg : String := "KeyError"

/-- `metrics_simple.track_prediction_request`: executes
`prediction_count[status] += batch_size`.  The dict holds exactly the keys
`"success"` and `"error"`; any other `status` raises `KeyError` during the
lookup, before any counter is written, so the error branch carries no new
state. -/
def track_prediction_request (batch_size : ℕ) (status : String)
    (s : MetricsState) : Except String MetricsState :=
  if status = successKey then
    Except.ok { s with success := s.success + batch_size }
  else if status = errorKey then
    Except.ok { s with error := s.error + batch_size }
  else
    Except.error keyErrorMsg

/-- The metrics state visible after a call to `track_prediction_request`:
on `KeyError` the module-level counters are exactly as before the call. -/
def metricsAfterCall (batch_size : ℕ) (status : String)
    (s : MetricsState) : MetricsState :=
  match track_prediction_request batch_size status s with
  | Except.ok s' => s'
  | Except.error _ => s

/-- The numeric content of the exposition document of
`metrics_simple.get_metrics`. -/
structure MetricsSnapshot where
  success : ℕ
  error : ℕ
  avg_duration : ℚ
deriving DecidableEq

/-- The divisor `max(request_count, 1)` used by `get_metrics`. -/
def metricsDivisor (s : MetricsState) : ℕ := max s.request_count 1

/-- `metrics_simple.get_metrics`: reports the two counters and
`avg_duration = total_duration / max(request_count, 1)`, formatted with
three decimal digits. -/
def get_metrics (s : MetricsState) : MetricsSnapshot :=
  { success := s.success, error := s.error,
    avg_duration := round3 (s.total_duration / (metricsDivisor s : ℚ)) }

/-- `main_simple.predict` run against the module-level metrics state:
`main_simple.py` does not import `src.monitoring.metrics_simple` and the
body of `predict` contains no call to `track_prediction_request` or
`track_prediction_duration`, so the metrics state after the invocation is
the state before it. -/
def predictWithMetrics (texts : List Text) (rands : ℕ → Rand) (elapsed : ℚ)
    (s : MetricsState) : BatchResult × MetricsState :=
  (predict texts rands elapsed, s)

/-!
Concurrency model for `prediction_count[status] += batch_size`.  In CPython
this statement is a read (`BINARY_SUBSCR`), an addition, and a separate
write (`STORE_SUBSCR`); the interpreter may switch threads between the read
and the write, so concurrent callers interleave these two atomic actions.
Each caller reports `batch_size = 1` for the same status, so a caller's
write stores its previously read value plus one.
-/

/-- One atomic action of a caller executing the increment: the read of the
counter into the caller's local value, or the write of that local value
plus one back to the counter. -/
inductive CounterAction where
  | readCounter (caller : ℕ)
  | writeCounter (caller : ℕ)
deriving DecidableEq, BEq

/-- Shared counter plus each caller's local read value. -/
structure ConcurrentState where
  counter : ℕ
  locals : ℕ → ℕ

/-- Effect of one atomic action. -/
def stepAction (st : ConcurrentState) : CounterAction → ConcurrentState
  | CounterAction.readCounter c =>
    { st with locals := fun i => if i = c then st.counter else st.locals i }
  | CounterAction.writeCounter c =>
    { st with counter := st.locals c + 1 }

/-- Run a schedule (one interleaving of the callers' actions) to completion. -/
def runSchedule (st : ConcurrentState) : List CounterAction → ConcurrentState
  | [] => st
  | a :: rest => runSchedule (stepAction st a) rest

/-- A schedule is a legitimate interleaving of `n` concurrent callers when
every caller performs exactly one read and exactly one write, with its read
before its write. -/
def isValidSchedule (n : ℕ) (sched : List CounterAction) : Bool :=
  (List.range n).all fun c =>
    sched.count (CounterAction.readCounter c) = 1 &&
    sched.count (CounterAction.writeCounter c) = 1 &&
    sched.indexOf (CounterAction.readCounter c) <
      sched.indexOf (CounterAction.writeCounter c)

/-- The interleaving in which all 10 callers read the counter before any
of them writes it back. -/
def lostUpdateSchedule : List CounterAction :=
  ((List.range 10).map CounterAction.readCounter) ++
    ((List.range 10).map CounterAction.writeCounter)

/-- Counter zero, all local values zero. -/
def zeroConcurrentState : ConcurrentState :=
  { counter := 0, locals := fun _ => 0 }

/-!  Rounding lemmas: `round4` maps a value bounded by decimal-aligned
endpoints to a value bounded by the same endpoints (the upper endpoint
becomes attainable, since a draw just below it may round up onto it). -/

lemma le_round4 {q : ℚ} (m : ℤ) (h : (m : ℚ) / 10000 ≤ q) :
    (m : ℚ) / 10000 ≤ round4 q := by
  have h1 : (m : ℚ) ≤ q * 10000 := by
    rwa [div_le_iff₀ (by norm_num : (0:ℚ) < 10000)] at h
  have h2 : m ≤ round (q * 10000) := by
    rw [round_eq, Int.le_floor]
    linarith
  rw [round4]
  gcongr

lemma round4_le {q : ℚ} (m : ℤ) (h : q < (m : ℚ) / 10000) :
    round4 q ≤ (m : ℚ) / 10000 := by
  have h1 : q * 10000 < (m : ℚ) := by
    rwa [lt_div_iff₀ (by norm_num : (0:ℚ) < 10000)] at h
  have h2 : round (q * 10000) ≤ m := by
    rw [round_eq]
    have hf : ⌊q * 10000 + 1/2⌋ < m + 1 := by
      rw [Int.floor_lt]
      push_cast
      linarith
    omega
  rw [round4]
  gcongr

lemma round4_between (mlo mhi : ℤ) {q lo hi : ℚ}
    (elo : (mlo : ℚ) / 10000 = lo) (ehi : (mhi : ℚ) / 10000 = hi)
    (h1 : lo ≤ q) (h2 : q < hi) :
    lo ≤ round4 q ∧ round4 q ≤ hi :=
  ⟨elo ▸ le_round4 mlo (elo.symm ▸ h1), ehi ▸ round4_le mhi (ehi.symm ▸ h2)⟩

/-!  Structural lemmas about the embedded code. -/

lemma scoreText_text (t : Text) (r : Rand) :
    (scoreText t r).text = truncateText t := by
  by_cases h1 : hasPositive t <;> by_cases h2 : hasNegative t <;>
    simp [scoreText, h1, h2]

lemma ellipsis_length : ellipsis.length = 3 := rfl

lemma truncateText_long {t : Text} (h : 100 < t.length) :
    truncateText t = t.take 100 ++ ellipsis := by
  simp [truncateText, h]

lemma truncateText_short {t : Text} (h : t.length ≤ 100) :
    truncateText t = t := by
  simp [truncateText, Nat.not_lt.mpr h]

lemma scoreTexts_length (rands : ℕ → Rand) (texts : List Text) :
    (scoreTexts rands texts).length = texts.length := by
  induction texts generalizing rands with
  | nil => rfl
  | cons t ts ih => simp [scoreTexts, ih]

lemma scoreTexts_get (rands : ℕ → Rand) (texts : List Text) (i : ℕ) :
    (scoreTexts rands texts).get? i =
      (texts.get? i).map (fun t => scoreText t (rands i)) := by
  induction texts generalizing rands i with
  | nil => simp [scoreTexts]
  | cons t ts ih =>
    cases i with
    | zero => simp [scoreTexts]
    | succ j => simpa [scoreTexts] using ih (fun k => rands (k + 1)) j

/-- Claim C7: `get_metrics` on the initial state reports zero successful
predictions, zero failed predictions, and a mean duration of 0; and for
every metrics state the divisor `max(request_count, 1)` of the mean is
positive, so no division by zero can occur. -/
theorem metrics_initial_snapshot :
    (get_metrics initialMetrics).success = 0 ∧
    (get_metrics initialMetrics).error = 0 ∧
    (get_metrics initialMetrics).avg_duration = 0 ∧
    ∀ s : MetricsState, 0 < metricsDivisor s := by
  refine ⟨rfl, rfl, ?_, fun s => ?_⟩
  · show round3 ((0 : ℚ) / ((metricsDivisor initialMetrics : ℕ) : ℚ)) = 0
    norm_num [round3, round_eq]
  · exact Nat.lt_of_lt_of_le Nat.zero_lt_one (le_max_right _ _)

/-- Claim C8: for either status key and any non-negative size,
`track_prediction_request` adds the size to exactly that status's counter
and leaves the other counter, the request counter, and the duration sum
unchanged; recording success batches of sizes 3 and 2 in sequence raises
the success counter by exactly 5. -/
theorem record_batch_increments (size : ℕ) (s : MetricsState) :
    (∃ s', track_prediction_request size successKey s = Except.ok s' ∧
      s'.success = s.success + size ∧ s'.error = s.error ∧
      s'.request_count = s.request_count ∧
      s'.total_duration = s.total_duration) ∧
    (∃ s', track_prediction_request size errorKey s = Except.ok s' ∧
      s'.error = s.error + size ∧ s'.success = s.success ∧
      s'.request_count = s.request_count ∧
      s'.total_duration = s.total_duration) ∧
    (∃ s₂, (track_prediction_request 3 successKey s).bind
        (track_prediction_request 2 successKey) = Except.ok s₂ ∧
      s₂.success = s.success + 5) := by
  refine ⟨⟨{ s with success := s.success + size }, ?_, rfl, rfl, rfl, rfl⟩,
    ⟨{ s with error := s.error + size }, ?_, rfl, rfl, rfl, rfl⟩,
    ⟨{ s with success := s.success + 3 + 2 }, ?_, by show s.success + 3 + 2 = s.success + 5; omega⟩⟩
  · simp [track_prediction_request]
  · simp [track_prediction_request, successKey, errorKey]
  · simp [track_prediction_request, Except.bind]

/-- Claim C9 (code_bug witness): the update
`prediction_count[status] += batch_size` is a read followed by a separate
write, so the interleaving of 10 concurrent callers of size 1 in which every
caller reads the counter before any caller writes it back is a legitimate
schedule, and it ends with the counter at 1 instead of 10: nine updates are
lost. -/
theorem lost_update_interleaving :
    isValidSchedule 10 lostUpdateSchedule = true ∧
    (runSchedule zeroConcurrentState lostUpdateSchedule).counter = 1 := by
  constructor <;> decide

/-- Claim C10: calling `track_prediction_request` with a status other than
the two dict keys raises `KeyError` during the lookup, and the metrics
state visible after the call is exactly the state before it. -/
theorem unknown_status_key_error (size : ℕ) (status : String)
    (s : MetricsState) (h1 : status ≠ successKey) (h2 : status ≠ errorKey) :
    track_prediction_request size status s = Except.error keyErrorMsg ∧
    metricsAfterCall size status s = s := by
  have he : track_prediction_request size status s = Except.error keyErrorMsg := by
    simp [track_prediction_request, h1, h2]
  exact ⟨he, by simp [metricsAfterCall, he]⟩

/-- Witness for claim C10 at the concrete status string `"failure"` and
size 5, from the initial state. -/
theorem unknown_status_key_error_witness :
    track_prediction_request 5 ("failure") initialMetrics =
      Except.error keyErrorMsg ∧
    metricsAfterCall 5 ("failure") initialMetrics = initialMetrics :=
  unknown_status_key_error 5 ("failure") initialMetrics (by decide) (by decide)

/-- Claim C1 (amended): an invocation of `predict` performs no metrics
update at all — `main_simple.py` never imports the metrics module — so
every counter and the duration sum of the Metrics Aggregator are unchanged
by the invocation. -/
theorem predict_no_metrics_update (texts : List Text) (rands : ℕ → Rand)
    (elapsed : ℚ) (s : MetricsState) :
    (predictWithMetrics texts rands elapsed s).2.success = s.success ∧
    (predictWithMetrics texts rands elapsed s).2.error = s.error ∧
    (predictWithMetrics texts rands elapsed s).2.request_count =
      s.request_count ∧
    (predictWithMetrics texts rands elapsed s).2.total_duration =
      s.total_duration :=
  ⟨rfl, rfl, rfl, rfl⟩

/-- Claim C1 counterexample: a valid one-text batch produces a result with
`count = 1` while the metrics state after the invocation is identical to
the initial state — its success counter is still 0, not `0 + count` as the
claim requires. -/
theorem predict_metrics_counterexample :
    (predictWithMetrics ((("hi").data) :: [])
      (fun _ => { hi := 9/10, lo := 3/5, coin := true }) 0
      initialMetrics).2 = initialMetrics ∧
    (predictWithMetrics ((("hi").data) :: [])
      (fun _ => { hi := 9/10, lo := 3/5, coin := true }) 0
      initialMetrics).1.count = 1 ∧
    initialMetrics.success = 0 := by
  refine ⟨rfl, ?_, rfl⟩
  decide

/-- Claim C3 (amended): a text with a positive indicator and no negative
indicator is labelled POSITIVE, and one with a negative indicator and no
positive indicator is labelled NEGATIVE; in both cases the returned
confidence lies in the closed interval `[0.85, 0.99]` — the draw lies in
`[0.85, 0.99)`, but rounding to 4 decimal digits can land exactly on
`0.99`. -/
theorem scorer_single_indicator (t : Text) (r : Rand)
    (hh1 : 17/20 ≤ r.hi) (hh2 : r.hi < 99/100) :
    (hasPositive t = true → hasNegative t = false →
      (scoreText t r).sentiment = positiveLabel ∧
      17/20 ≤ (scoreText t r).confidence ∧
      (scoreText t r).confidence ≤ 99/100) ∧
    (hasNegative t = true → hasPositive t = false →
      (scoreText t r).sentiment = negativeLabel ∧
      17/20 ≤ (scoreText t r).confidence ∧
      (scoreText t r).confidence ≤ 99/100) := by
  have hb := round4_between 8500 9900 (by norm_num) (by norm_num) hh1 hh2
  constructor
  · intro hp _
    simp only [scoreText, hp, if_true]
    exact ⟨trivial, hb⟩
  · intro hn hp
    simp only [scoreText, hp, hn, Bool.false_eq_true, if_false, if_true]
    exact ⟨trivial, hb⟩

/-- Witness for claim C3 at the positive-only text `"love"` and the
negative-only text `"bad"`, with draw `0.9 ∈ [0.85, 0.99)`. -/
theorem scorer_single_indicator_witness :
    ((scoreText (("love").data) { hi := 9/10, lo := 3/5, coin := true }).sentiment
        = positiveLabel ∧
      17/20 ≤ (scoreText (("love").data)
        { hi := 9/10, lo := 3/5, coin := true }).confidence ∧
      (scoreText (("love").data)
        { hi := 9/10, lo := 3/5, coin := true }).confidence ≤ 99/100) ∧
    ((scoreText (("bad").data) { hi := 9/10, lo := 3/5, coin := true }).sentiment
        = negativeLabel ∧
      17/20 ≤ (scoreText (("bad").data)
        { hi := 9/10, lo := 3/5, coin := true }).confidence ∧
      (scoreText (("bad").data)
        { hi := 9/10, lo := 3/5, coin := true }).confidence ≤ 99/100) :=
  ⟨(scorer_single_indicator (("love").data) _ (by norm_num) (by norm_num)).1
      (by decide) (by decide),
    (scorer_single_indicator (("bad").data) _ (by norm_num) (by norm_num)).2
      (by decide) (by decide)⟩

/-- Claim C3 counterexample: the draw `0.98997` lies inside `[0.85, 0.99)`,
the text `"love"` is positive-only, yet the returned confidence is exactly
`0.99`, outside the half-open interval `[0.85, 0.99)` the claim states. -/
theorem scorer_confidence_boundary_counterexample :
    (17:ℚ)/20 ≤ 98997/100000 ∧ (98997:ℚ)/100000 < 99/100 ∧
    hasPositive (("love").data) = true ∧
    hasNegative (("love").data) = false ∧
    (scoreText (("love").data)
      { hi := 98997/100000, lo := 3/5, coin := true }).sentiment =
        positiveLabel ∧
    (scoreText (("love").data)
      { hi := 98997/100000, lo := 3/5, coin := true }).confidence = 99/100 := by
  refine ⟨by norm_num, by norm_num, by decide, by decide, ?_, ?_⟩
  · simp [scoreText, (by decide : hasPositive (("love").data) = true)]
  · simp only [scoreText, (by decide : hasPositive (("love").data) = true),
      if_true]
    norm_num [round4, round_eq]

/-- Claim C2 (amended): only a text matching neither indicator set reaches
the random fallback — its label is the unweighted coin's choice and its
confidence lies in `[0.50, 0.75]` after rounding; a text matching both
sets instead takes the positive branch: label POSITIVE, confidence in
`[0.85, 0.99]`, never below `0.75`. -/
theorem scorer_fallback_and_conflict (t : Text) (r : Rand)
    (hl1 : 1/2 ≤ r.lo) (hl2 : r.lo < 3/4)
    (hh1 : 17/20 ≤ r.hi) (hh2 : r.hi < 99/100) :
    (hasPositive t = false → hasNegative t = false →
      (scoreText t r).sentiment =
        (if r.coin then positiveLabel else negativeLabel) ∧
      1/2 ≤ (scoreText t r).confidence ∧
      (scoreText t r).confidence ≤ 3/4) ∧
    (hasPositive t = true → hasNegative t = true →
      (scoreText t r).sentiment = positiveLabel ∧
      17/20 ≤ (scoreText t r).confidence ∧
      (scoreText t r).confidence ≤ 99/100) := by
  constructor
  · intro hp hn
    simp only [scoreText, hp, hn, Bool.false_eq_true, if_false]
    exact ⟨trivial, round4_between 5000 7500 (by norm_num) (by norm_num) hl1 hl2⟩
  · intro hp _
    simp only [scoreText, hp, if_true]
    exact ⟨trivial, round4_between 8500 9900 (by norm_num) (by norm_num) hh1 hh2⟩

/-- Witness for claim C2 at the no-indicator text `"hm"` (fallback branch,
coin picks POSITIVE) and the both-indicators text `"love hate"`. -/
theorem scorer_fallback_and_conflict_witness :
    ((scoreText (("hm").data) { hi := 9/10, lo := 3/5, coin := true }).sentiment
        = positiveLabel ∧
      1/2 ≤ (scoreText (("hm").data)
        { hi := 9/10, lo := 3/5, coin := true }).confidence ∧
      (scoreText (("hm").data)
        { hi := 9/10, lo := 3/5, coin := true }).confidence ≤ 3/4) ∧
    ((scoreText (("love hate").data)
        { hi := 9/10, lo := 3/5, coin := true }).sentiment = positiveLabel ∧
      17/20 ≤ (scoreText (("love hate").data)
        { hi := 9/10, lo := 3/5, coin := true }).confidence ∧
      (scoreText (("love hate").data)
        { hi := 9/10, lo := 3/5, coin := true }).confidence ≤ 99/100) :=
  ⟨(scorer_fallback_and_conflict (("hm").data) _ (by norm_num) (by norm_num)
      (by norm_num) (by norm_num)).1 (by decide) (by decide),
    (scorer_fallback_and_conflict (("love hate").data) _ (by norm_num)
      (by norm_num) (by norm_num) (by norm_num)).2 (by decide) (by decide)⟩

/-- Claim C2 counterexample: the text `"love hate"` matches both indicator
sets, the coin is fixed to NEGATIVE, and the draws are in range, yet the
label is POSITIVE (the coin is never consulted) and the returned confidence
is `0.9`, which is not below `0.75`. -/
theorem scorer_conflict_counterexample :
    hasPositive (("love hate").data) = true ∧
    hasNegative (("love hate").data) = true ∧
    (scoreText (("love hate").data)
      { hi := 9/10, lo := 3/5, coin := false }).sentiment = positiveLabel ∧
    (scoreText (("love hate").data)
      { hi := 9/10, lo := 3/5, coin := false }).confidence = 9/10 ∧
    (3:ℚ)/4 < 9/10 := by
  refine ⟨by decide, by decide, ?_, ?_, by norm_num⟩
  · simp [scoreText, (by decide : hasPositive (("love hate").data) = true)]
  · simp only [scoreText,
      (by decide : hasPositive (("love hate").data) = true), if_true]
    norm_num [round4, round_eq]

/-- Claim C4: the displayed text of a verdict is the input itself when its
length is at most 100 characters, and otherwise it is exactly the input's
first 100 characters followed by the three-character ellipsis marker,
giving displayed length exactly 103 with the marker as suffix. -/
theorem verdict_truncation (t : Text) (r : Rand) :
    (100 < t.length →
      (scoreText t r).text = t.take 100 ++ ellipsis ∧
      ((scoreText t r).text).length = 103 ∧
      List.IsSuffix ellipsis ((scoreText t r).text)) ∧
    (t.length ≤ 100 → (scoreText t r).text = t) := by
  rw [scoreText_text]
  constructor
  · intro h
    rw [truncateText_long h]
    refine ⟨rfl, ?_, ⟨t.take 100, rfl⟩⟩
    simp only [List.length_append, List.length_take, ellipsis_length]
    omega
  · intro h
    exact truncateText_short h

/-- Witness for claim C4 at a 101-character text (displayed as its first
100 characters plus the ellipsis marker, total length 103) and at the
2-character text `"hi"` (unchanged). -/
theorem verdict_truncation_witness :
    ((scoreText (List.replicate 101 'a')
        { hi := 9/10, lo := 3/5, coin := true }).text
        = (List.replicate 101 'a').take 100 ++ ellipsis ∧
      ((scoreText (List.replicate 101 'a')
        { hi := 9/10, lo := 3/5, coin := true }).text).length = 103 ∧
      List.IsSuffix ellipsis ((scoreText (List.replicate 101 'a')
        { hi := 9/10, lo := 3/5, coin := true }).text)) ∧
    (scoreText (("hi").data)
      { hi := 9/10, lo := 3/5, coin := true }).text = ("hi").data :=
  ⟨(verdict_truncation (List.replicate 101 'a') _).1 (by decide),
    (verdict_truncation (("hi").data) _).2 (by decide)⟩

/-- Claim C5: for every valid batch of 1 to 10 texts, the result's `count`
equals the input length, the predictions sequence has the input's length,
and its i-th entry is the verdict of the i-th input text. -/
theorem batch_shape_order (texts : List Text) (rands : ℕ → Rand)
    (elapsed : ℚ) (_h1 : 1 ≤ texts.length) (_h2 : texts.length ≤ 10) :
    (predict texts rands elapsed).count = texts.length ∧
    (predict texts rands elapsed).predictions.length = texts.length ∧
    ∀ i : ℕ, (predict texts rands elapsed).predictions.get? i =
      (texts.get? i).map (fun t => scoreText t (rands i)) := by
  refine ⟨?_, ?_, ?_⟩
  · show (scoreTexts rands texts).length = texts.length
    exact scoreTexts_length rands texts
  · show (scoreTexts rands texts).length = texts.length
    exact scoreTexts_length rands texts
  · intro i
    exact scoreTexts_get rands texts i

/-- Witness for claim C5 at the two-text batch `["love", "hi"]`. -/
theorem batch_shape_order_witness :
    (predict ((("love").data) :: (("hi").data) :: [])
      (fun _ => { hi := 9/10, lo := 3/5, coin := true }) 0).count = 2 ∧
    (predict ((("love").data) :: (("hi").data) :: [])
      (fun _ => { hi := 9/10, lo := 3/5, coin := true }) 0).predictions.length
      = 2 ∧
    (predict ((("love").data) :: (("hi").data) :: [])
      (fun _ => { hi := 9/10, lo := 3/5, coin := true }) 0).predictions.get? 1
      = ((((("love").data) :: (("hi").data) :: []) : List Text).get? 1).map
        (fun t => scoreText t { hi := 9/10, lo := 3/5, coin := true }) :=
  ⟨(batch_shape_order _ _ 0 (by decide) (by decide)).1,
    (batch_shape_order _ _ 0 (by decide) (by decide)).2.1,
    (batch_shape_order _ _ 0 (by decide) (by decide)).2.2 1⟩

/-- Claim C6: for every text and in-range draws, the returned confidence
lies in `[0, 1]` and is an integer multiple of `1/10000`, i.e. it carries
at most 4 decimal digits. -/
theorem confidence_range_rounding (t : Text) (r : Rand)
    (hl1 : 1/2 ≤ r.lo) (hl2 : r.lo < 3/4)
    (hh1 : 17/20 ≤ r.hi) (hh2 : r.hi < 99/100) :
    0 ≤ (scoreText t r).confidence ∧ (scoreText t r).confidence ≤ 1 ∧
    ∃ k : ℤ, (scoreText t r).confidence = (k : ℚ) / 10000 := by
  have bhi := round4_between 8500 9900 (by norm_num) (by norm_num) hh1 hh2
  have blo := round4_between 5000 7500 (by norm_num) (by norm_num) hl1 hl2
  by_cases hp : hasPositive t
  · simp only [scoreText, hp, if_true]
    exact ⟨by linarith [bhi.1], by linarith [bhi.2],
      ⟨round (r.hi * 10000), rfl⟩⟩
  · by_cases hn : hasNegative t
    · simp only [scoreText, hp, hn, Bool.false_eq_true, if_false, if_true]
      exact ⟨by linarith [bhi.1], by linarith [bhi.2],
        ⟨round (r.hi * 10000), rfl⟩⟩
    · simp only [scoreText, hp, hn, Bool.false_eq_true, if_false]
      exact ⟨by linarith [blo.1], by linarith [blo.2],
        ⟨round (r.lo * 10000), rfl⟩⟩

/-- Witness for claim C6 at the text `"hi"` with in-range draws. -/
theorem confidence_range_rounding_witness :
    0 ≤ (scoreText (("hi").data)
      { hi := 9/10, lo := 3/5, coin := true }).confidence ∧
    (scoreText (("hi").data)
      { hi := 9/10, lo := 3/5, coin := true }).confidence ≤ 1 ∧
    ∃ k : ℤ, (scoreText (("hi").data)
      { hi := 9/10, lo := 3/5, coin := true }).confidence = (k : ℚ) / 10000 :=
  confidence_range_rounding (("hi").data) _ (by norm_num) (by norm_num)
    (by norm_num) (by norm_num)

end MLSentimentOps
